import Mathlib

/-!
# Verification of the web-intelligence-cli multi-source search tool

Shallow embedding of `src/config.py` and `src/main.py`: the configuration
constants, the normalized `SearchResult` record, the per-source adapter
`search` methods (Wikipedia and GitHub), the orchestrator's dispatch loop
and URL deduplication pass, the retry loop of `BaseSearcher._safe_request`,
and the two report formatters (`to_csv`, `to_json`).

Network requests are modelled by passing the outcome of the request/parse
step as an explicit argument (`Except String (List _)`): `Except.error`
stands for any exception raised while requesting or decoding the response
(the Python code wraps the whole body in one `try/except`).  Wall-clock
timestamps are passed in as an explicit `now : String` argument.
-/

namespace WebIntel

/-! ## Constants from `src/config.py` -/

def MIN_KEYWORD_LENGTH : Nat := 2

def MAX_KEYWORD_LENGTH : Nat := 200

def MAX_RESULTS_LIMIT : Int := 50

def REQUEST_RETRIES : Nat := 2

def AVAILABLE_SOURCES : List String :=
  ["wikipedia", "stackoverflow", "github", "googlenews", "hackernews"]

/-! ## Data model: the normalized result record built by every adapter -/

/-- One normalized hit, as built by each searcher in `src/main.py`
(keys `source`, `title`, `description`, `url`, `timestamp`). -/
structure SearchResult where
  source : String
  title : String
  description : String
  url : String
  timestamp : String
  deriving DecidableEq, Repr

/-! ## Orchestrator deduplication pass (`WebIntelligenceGatherer.search`,
`src/main.py` lines 339-351)

```python
unique_results = []
seen_urls = set()
for result in self.all_results:
    url = result.get('url', '')
    if url and url not in seen_urls:
        unique_results.append(result)
        seen_urls.add(url)
```

The `seen_urls` set is modelled as a list of strings; `if url` is Python
truthiness of a string, i.e. `url ≠ ""`. -/

def dedupAux : List SearchResult → List String → List SearchResult
  | [], _ => []
  | r :: rest, seen =>
    if r.url ≠ "" ∧ r.url ∉ seen then
      r :: dedupAux rest (r.url :: seen)
    else
      dedupAux rest seen

/-- The final deduplication phase of `WebIntelligenceGatherer.search`. -/
def dedup (results : List SearchResult) : List SearchResult :=
  dedupAux results []

/-! ## Constructor validation (`WebIntelligenceGatherer.__init__`,
`src/main.py` lines 273-290).  Raising `ValueError` is modelled by
`Except.error`; the constructor performs no network activity, so a
returned value models "accepted before any request". -/

def gathererInit (keyword : String) (sources : List String)
    (_maxResults : Int) : Except String Unit :=
  if keyword.isEmpty || keyword.length < MIN_KEYWORD_LENGTH then
    Except.error "Keyword must be at least 2 characters"
  else if MAX_KEYWORD_LENGTH < keyword.length then
    Except.error "Keyword must be less than 200 characters"
  else if sources.any (fun s => !(AVAILABLE_SOURCES.contains s)) then
    Except.error "Invalid sources"
  else
    Except.ok ()

/-- A keyword of a given length, for the boundary tests. -/
def mkKeyword (n : Nat) : String := String.mk (List.replicate n 'a')

/-! ## Source adapters (`BaseSearcher` subclasses, `src/main.py`)

`BaseSearcher.__init__` stores `min(max_results, config.MAX_RESULTS_LIMIT)`;
each `search` method appends one normalized record per raw provider item
and returns `self.results[:self.max_results]`.  The whole body sits in one
`try/except` that swallows every exception, so a failed request or an
undecodable response leaves `self.results` empty. -/

/-- `self.max_results = min(max_results, config.MAX_RESULTS_LIMIT)`
from `BaseSearcher.__init__`. -/
def searcherCap (maxResults : Int) : Int :=
  min maxResults MAX_RESULTS_LIMIT

/-- Python list slicing `xs[:k]`: a non-negative stop index keeps the
first `k` elements; a negative stop index keeps `len(xs) + k` elements
(clamped at zero), i.e. drops `-k` trailing elements. -/
def pySlice (k : Int) (xs : List α) : List α :=
  if 0 ≤ k then xs.take k.toNat
  else xs.take ((xs.length : Int) + k).toNat

/-- The single-quote character, used in the Wikipedia snippet markup. -/
def singleQuote : String := String.mk [Char.ofNat 39]

/-- The `<span class='searchmatch'>` opening tag stripped from Wikipedia
snippets. -/
def spanOpenTag : String :=
  "<span class=" ++ singleQuote ++ "searchmatch" ++ singleQuote ++ ">"

/-- One raw item of the Wikipedia search response
(`data['query']['search']`); `none` models an absent key, matching
`item.get(key, default)`. -/
structure WikiItem where
  title : Option String
  snippet : Option String
  deriving DecidableEq, Repr

/-- The record built for one Wikipedia item
(`WikipediaSearcher.search`, loop body). -/
def wikipediaParseItem (now : String) (item : WikiItem) : SearchResult :=
  { source := "wikipedia"
    title := item.title.getD ""
    description :=
      ((item.snippet.getD "").replace spanOpenTag "").replace "</span>" ""
    url := "https://en.wikipedia.org/wiki/" ++
      (item.title.getD "").replace " " "_"
    timestamp := now }

/-- `WikipediaSearcher.search`: the request/decode outcome is passed in;
`Except.error` is any exception caught by the surrounding `try/except`
(request failure after retries, undecodable JSON, unexpected shape),
which leaves `self.results` empty.  Either way the method returns
`self.results[:self.max_results]` and never raises. -/
def wikipediaSearch (_keyword : String) (maxResults : Int) (now : String)
    (resp : Except String (List WikiItem)) : List SearchResult :=
  match resp with
  | Except.error _ => pySlice (searcherCap maxResults) []
  | Except.ok items =>
      pySlice (searcherCap maxResults) (items.map (wikipediaParseItem now))

/-- One raw item of the GitHub repository-search response
(`data['items']`). -/
structure GitHubItem where
  name : Option String
  description : Option String
  htmlUrl : Option String
  deriving DecidableEq, Repr

/-- The record built for one GitHub item (`GitHubSearcher.search`,
loop body, with the `item.get` defaults). -/
def githubParseItem (now : String) (item : GitHubItem) : SearchResult :=
  { source := "github"
    title := item.name.getD ""
    description := item.description.getD "No description provided"
    url := item.htmlUrl.getD ""
    timestamp := now }

/-- `GitHubSearcher.search`, modelled exactly like `wikipediaSearch`. -/
def githubSearch (_keyword : String) (maxResults : Int) (now : String)
    (resp : Except String (List GitHubItem)) : List SearchResult :=
  match resp with
  | Except.error _ => pySlice (searcherCap maxResults) []
  | Except.ok items =>
      pySlice (searcherCap maxResults) (items.map (githubParseItem now))

/-! ## Retry loop of `BaseSearcher._safe_request` (`src/main.py` 40-55)

```python
for attempt in range(config.REQUEST_RETRIES):
    try:
        response = requests.get(url, timeout=config.TIMEOUT, **kwargs)
        response.raise_for_status()
        return response
    except Exception as e:
        if attempt == config.REQUEST_RETRIES - 1:
            raise
        time.sleep(1)
```

`outcome i` tells whether attempt number `i` (0-based) succeeds.  The
model returns the number of GET attempts actually performed and whether
the call returned normally (`true`) or re-raised (`false`).  The
1-second `time.sleep(1)` between attempts is not modelled. -/

def attemptLoop (outcome : Nat → Bool) : Nat → Nat → Nat × Bool
  | _, 0 => (0, false)
  | i, n + 1 =>
    if outcome i then (1, true)
    else if n = 0 then (1, false)
    else
      let p := attemptLoop outcome (i + 1) n
      (p.1 + 1, p.2)

/-- Attempt count and outcome of one `_safe_request` call. -/
def safeRequest (outcome : Nat → Bool) : Nat × Bool :=
  attemptLoop outcome 0 REQUEST_RETRIES

/-! ## Orchestrator dispatch loop (`WebIntelligenceGatherer.search`,
`src/main.py` 318-325)

```python
for source in self.sources:
    searcher = self._get_searcher(source)
    if searcher:
        future = executor.submit(searcher.search)
        futures[future] = source
```

`executor.submit` is called once per list entry whose name resolves in
the `_get_searcher` registry; each call is a distinct future object, so
the `futures` dict never collapses repeated sources. -/

/-- Whether `_get_searcher` resolves the name (its registry keys). -/
def searcherExists (source : String) : Bool :=
  ["wikipedia", "github", "stackoverflow", "hackernews",
    "googlenews"].contains source

/-- Number of adapter invocations submitted to the pool. -/
def dispatchCount (sources : List String) : Nat :=
  (sources.filter searcherExists).length

/-! ## Report formatters (`ReportGenerator`, `src/main.py` 228-263) -/

/-- Python `','.join(cells)`. -/
def joinComma : List String → String
  | [] => ""
  | [x] => x
  | x :: rest => x ++ "," ++ joinComma rest

/-- `f'"{s.replace(chr(34), chr(34)+chr(34))}"'`: surround with double
quotes, doubling each embedded double-quote character. -/
def csvQuote (s : String) : String :=
  "\"" ++ s.replace "\"" "\"\"" ++ "\""

/-- The `row` list built for one record in `ReportGenerator.to_csv`. -/
def csvRowCells (r : SearchResult) : List String :=
  [r.source, csvQuote r.title, csvQuote r.description, r.url, r.timestamp]

/-- `ReportGenerator.to_csv`: placeholder on empty input, else the header
line followed by `','.join(row) + '\n'` per record, accumulated in
order. -/
def to_csv (all_results : List SearchResult) : String :=
  if all_results.isEmpty then "No results found"
  else all_results.foldl
    (fun out r => out ++ joinComma (csvRowCells r) ++ "\n")
    "source,title,description,url,timestamp\n"

/-- JSON values, modelling the Python dict passed to `json.dumps`
(string serialization and re-parsing are the standard library's
inverse pair and are not re-modelled; the report is analyzed at the
value level). -/
inductive JVal where
  | str : String → JVal
  | num : Rat → JVal
  | arr : List JVal → JVal
  | obj : List (String × JVal) → JVal

/-- Field lookup in a JSON object. -/
def JVal.getField : JVal → String → Option JVal
  | JVal.obj fields, k => (fields.find? (fun p => p.1 == k)).map Prod.snd
  | _, _ => none

/-- The ordered key list of a JSON object. -/
def JVal.objKeys : JVal → Option (List String)
  | JVal.obj fields => some (fields.map Prod.fst)
  | _ => none

/-- Python `round(x, 2)` on the elapsed seconds, modelled over `ℚ`
(binary floating-point representation and its half-even tie-break are
not modelled; no claim depends on a tie). -/
def round2 (q : Rat) : Rat := ((round (q * 100) : Int) : Rat) / 100

/-- One result record as a JSON object, keys in the order the adapters
build them. -/
def resultToJVal (r : SearchResult) : JVal :=
  JVal.obj [("source", JVal.str r.source), ("title", JVal.str r.title),
    ("description", JVal.str r.description), ("url", JVal.str r.url),
    ("timestamp", JVal.str r.timestamp)]

/-- `ReportGenerator.to_json`: the `report` dict, with `datetime.now()`
passed in as `now`. -/
def to_json (all_results : List SearchResult) (keyword : String)
    (search_time : Rat) (sources : List String) (now : String) : JVal :=
  JVal.obj [
    ("search", JVal.obj [
      ("keyword", JVal.str keyword),
      ("timestamp", JVal.str now),
      ("sources", JVal.arr (sources.map JVal.str)),
      ("total_results", JVal.num (all_results.length : Rat)),
      ("search_time_seconds", JVal.num (round2 search_time))]),
    ("results", JVal.arr (all_results.map resultToJVal))]

/-! ## Helper lemmas about the deduplication pass -/

/-- Every record kept by `dedupAux` has a non-empty URL not in `seen`. -/
theorem dedupAux_mem {rs : List SearchResult} {seen : List String}
    {r : SearchResult} (h : r ∈ dedupAux rs seen) :
    r.url ≠ "" ∧ r.url ∉ seen := by
  induction rs generalizing seen with
  | nil => simp [dedupAux] at h
  | cons x rest ih =>
    rw [dedupAux] at h
    split at h
    · next hc =>
      rcases List.mem_cons.mp h with hr | hr
      · subst hr; exact hc
      · have := ih hr
        exact ⟨this.1, fun hm => this.2 (List.mem_cons_of_mem _ hm)⟩
    · exact ih h

/-- The URLs of the records kept by `dedupAux` are pairwise distinct. -/
theorem dedupAux_nodup (rs : List SearchResult) (seen : List String) :
    ((dedupAux rs seen).map SearchResult.url).Nodup := by
  induction rs generalizing seen with
  | nil => simp [dedupAux]
  | cons x rest ih =>
    rw [dedupAux]
    split
    · next hc =>
      simp only [List.map_cons, List.nodup_cons]
      refine ⟨?_, ih _⟩
      intro hmem
      rcases List.mem_map.mp hmem with ⟨r, hr, hurl⟩
      exact (dedupAux_mem hr).2 (hurl ▸ List.mem_cons_self _ _)
    · exact ih _

/-- `dedupAux` returns a sublist of its input. -/
theorem dedupAux_sublist (rs : List SearchResult) (seen : List String) :
    (dedupAux rs seen).Sublist rs := by
  induction rs generalizing seen with
  | nil => simp [dedupAux]
  | cons x rest ih =>
    rw [dedupAux]
    split
    · exact List.Sublist.cons₂ x (ih _)
    · exact List.Sublist.cons x (ih _)

/-- On a list whose URLs are all non-empty, absent from `seen`, and
pairwise distinct, `dedupAux` keeps everything. -/
theorem dedupAux_of_clean :
    ∀ (ys : List SearchResult) (seen : List String),
    (∀ r ∈ ys, r.url ≠ "") → ((ys.map SearchResult.url).Nodup) →
    (∀ r ∈ ys, r.url ∉ seen) → dedupAux ys seen = ys := by
  intro ys
  induction ys with
  | nil => intro seen _ _ _; rfl
  | cons x rest ih =>
    intro seen hne hnd hseen
    rw [List.map_cons, List.nodup_cons] at hnd
    have hx : x.url ≠ "" := hne x (List.mem_cons_self _ _)
    have hxs : x.url ∉ seen := hseen x (List.mem_cons_self _ _)
    rw [dedupAux, if_pos ⟨hx, hxs⟩]
    congr 1
    apply ih
    · intro r hr; exact hne r (List.mem_cons_of_mem _ hr)
    · exact hnd.2
    · intro r hr hmem
      rcases List.mem_cons.mp hmem with h | h
      · exact hnd.1 (h ▸ List.mem_map_of_mem SearchResult.url hr)
      · exact hseen r (List.mem_cons_of_mem _ hr) h

/-- The first occurrence (in input order) of any fixed non-empty URL
survives `dedupAux` and stays the first occurrence. -/
theorem dedupAux_find (u : String) (hu : u ≠ "") :
    ∀ (rs : List SearchResult) (seen : List String), u ∉ seen →
    (dedupAux rs seen).find? (fun r => r.url == u) =
      rs.find? (fun r => r.url == u) := by
  intro rs
  induction rs with
  | nil => intro seen _; rfl
  | cons x rest ih =>
    intro seen hseen
    by_cases hxu : x.url = u
    · have hkeep : x.url ≠ "" ∧ x.url ∉ seen := ⟨hxu ▸ hu, hxu ▸ hseen⟩
      rw [dedupAux, if_pos hkeep]
      simp [List.find?_cons, beq_iff_eq.mpr hxu]
    · have hb : (x.url == u) = false := beq_eq_false_iff_ne.mpr hxu
      rw [dedupAux]
      split
      · simp only [List.find?_cons, hb]
        exact ih (x.url :: seen)
          (fun hm => by
            rcases List.mem_cons.mp hm with h | h
            · exact hxu h.symm
            · exact hseen h)
      · simp only [List.find?_cons, hb]
        exact ih seen hseen

/-! ## Concrete input from the spec's dedup example -/

/-- A record carrying only a URL, the other fields fixed. -/
def exResult (u : String) : SearchResult :=
  { source := "s", title := "t", description := "d", url := u,
    timestamp := "ts" }

/-- The aggregate buffer
`[{url:"http://a"}, {url:"http://a"}, {url:""}, {url:""}]`. -/
def exampleBuffer : List SearchResult :=
  [exResult "http://a", exResult "http://a", exResult "", exResult ""]

/-! ## Further helper lemmas -/

/-- A slice with a non-negative stop index keeps at most that many
elements. -/
theorem pySlice_length_le {k : Int} (hk : 0 ≤ k) (xs : List α) :
    (pySlice k xs).length ≤ k.toNat := by
  rw [pySlice, if_pos hk]
  simp

/-- The retry loop with `n` attempts allowed performs at most `n`
attempts. -/
theorem attemptLoop_le (outcome : Nat → Bool) :
    ∀ (n i : Nat), (attemptLoop outcome i n).1 ≤ n := by
  intro n
  induction n with
  | zero => intro i; simp [attemptLoop]
  | succ n ih =>
    intro i
    rw [attemptLoop]
    split
    · simp
    · split
      · simp
      · simpa using Nat.succ_le_succ (ih (i + 1))

/-- Folding string concatenation from `a` appends the join of the list
to `a`. -/
theorem foldl_append_eq_join :
    ∀ (l : List String) (a : String),
    l.foldl (fun x y => x ++ y) a = a ++ String.join l := by
  intro l
  induction l with
  | nil => intro a; simp [String.join]
  | cons z zs ih =>
    intro a
    rw [List.foldl_cons, ih]
    have h2 : String.join (z :: zs) = z ++ String.join zs := by
      show (z :: zs).foldl (fun x y => x ++ y) "" = z ++ String.join zs
      rw [List.foldl_cons, ih]
      simp
    rw [h2, String.append_assoc]

/-- `String.join` of a cons. -/
theorem join_cons (z : String) (l : List String) :
    String.join (z :: l) = z ++ String.join l := by
  show (z :: l).foldl (fun x y => x ++ y) "" = z ++ String.join l
  rw [List.foldl_cons, foldl_append_eq_join]
  simp

/-- Folding the CSV row accumulation from `acc` appends the joined rows
to `acc`. -/
theorem to_csv_foldl (rs : List SearchResult) :
    ∀ acc : String,
    rs.foldl (fun out r => out ++ joinComma (csvRowCells r) ++ "\n") acc =
      acc ++ String.join
        (rs.map (fun r => joinComma (csvRowCells r) ++ "\n")) := by
  induction rs with
  | nil => intro acc; simp [String.join]
  | cons x rest ih =>
    intro acc
    rw [List.foldl_cons, ih, List.map_cons, join_cons]
    simp [String.append_assoc]

/-! ## Claim theorems -/

/-- C1, counterexample: on the input
`[{url:"http://a"}, {url:"http://a"}, {url:""}, {url:""}]` the
deduplication pass of `WebIntelligenceGatherer.search` returns 1 entry,
not the 3 the claim states: the guard `if url and url not in seen_urls`
drops every empty-URL entry instead of keeping it. -/
theorem c1_dedup_example_counterexample :
    (dedup exampleBuffer).length = 1 ∧
    ¬ (dedup exampleBuffer).length = 3 := by
  constructor
  · rfl
  · decide

/-- C1 (amended): the deduplication pass keeps the first occurrence of
each non-empty URL, drops later entries with that same URL, and drops
every entry whose URL is empty; in particular on the input
`[{url:"http://a"}, {url:"http://a"}, {url:""}, {url:""}]` it returns
exactly one entry, the `"http://a"` one. -/
theorem c1_dedup_amended :
    (∀ rs : List SearchResult,
      (∀ r ∈ dedup rs, r.url ≠ "") ∧
      (dedup rs).Sublist rs ∧
      ((dedup rs).map SearchResult.url).Nodup) ∧
    (∀ (u : String) (rs : List SearchResult), u ≠ "" →
      (dedup rs).find? (fun r => r.url == u) =
        rs.find? (fun r => r.url == u)) ∧
    dedup exampleBuffer = [exResult "http://a"] := by
  refine ⟨fun rs => ⟨fun r hr => (dedupAux_mem hr).1,
    dedupAux_sublist rs [], dedupAux_nodup rs []⟩,
    fun u rs hu => dedupAux_find u hu rs [] (by simp), ?_⟩
  decide

/-- C1 witness: the amended theorem applied at the concrete example,
discharging each hypothesis there. -/
theorem c1_dedup_amended_witness :
    (exResult "http://a").url ≠ "" ∧
    (dedup exampleBuffer).find? (fun r => r.url == "http://a") =
      exampleBuffer.find? (fun r => r.url == "http://a") :=
  ⟨(c1_dedup_amended.1 exampleBuffer).1 (exResult "http://a") (by decide),
   c1_dedup_amended.2.1 "http://a" exampleBuffer (by decide)⟩

/-- C2: the deduplicated list returned by `WebIntelligenceGatherer.search`
never contains two entries with the same non-empty URL, and the
deduplication pass is idempotent: applied to an already-deduplicated
sequence it returns it unchanged. -/
theorem c2_dedup_invariant_idempotent :
    (∀ rs : List SearchResult,
      (dedup rs).Pairwise (fun a b => ¬(a.url ≠ "" ∧ a.url = b.url))) ∧
    (∀ rs : List SearchResult, dedup (dedup rs) = dedup rs) := by
  constructor
  · intro rs
    have hnd := dedupAux_nodup rs []
    rw [List.Nodup, List.pairwise_map] at hnd
    exact hnd.imp (fun h hc => h hc.2)
  · intro rs
    exact dedupAux_of_clean (dedup rs) []
      (fun r hr => (dedupAux_mem hr).1) (dedupAux_nodup rs [])
      (fun r _ => List.not_mem_nil r.url)

/-- C2 witness: idempotence at the concrete example buffer. -/
theorem c2_dedup_witness :
    dedup (dedup exampleBuffer) = dedup exampleBuffer :=
  c2_dedup_invariant_idempotent.2 exampleBuffer

/-- C3: `_safe_request` loops `for attempt in range(REQUEST_RETRIES)`
with `REQUEST_RETRIES = 2`, so it performs at most 2 total GET attempts
(1 retry), re-raising on the second failure — not the 3 attempts
(2 retries) the claim, the spec's worst-case formula
`timeout * (retries+1)`, and config.py's own comment
(`# Number of retries on failure`) describe.  On a request that fails
every attempt, exactly 2 attempts are made and the exception
propagates. -/
theorem c3_safe_request_attempts :
    safeRequest (fun _ => false) = (2, false) ∧
    (∀ outcome : Nat → Bool, (safeRequest outcome).1 ≤ 2) ∧
    REQUEST_RETRIES = 2 :=
  ⟨rfl, fun outcome => attemptLoop_le outcome 2 0, rfl⟩

/-- C4, counterexample: the request
`keyword="ab", sources=["wikipedia","wikipedia"], max_results=5` passes
construction-time validation, yet the dispatch loop submits 2 adapter
invocations while the list has only 1 distinct source identifier: the
loop iterates over the raw list and `futures` is keyed by the fresh
future object, so repetitions are not collapsed. -/
theorem c4_duplicate_source_counterexample :
    (gathererInit "ab" ["wikipedia", "wikipedia"] 5).isOk = true ∧
    dispatchCount ["wikipedia", "wikipedia"] = 2 ∧
    (["wikipedia", "wikipedia"] : List String).dedup.length = 1 := by
  decide

/-- C4 (amended): the orchestrator submits one adapter invocation per
entry of the requested source list that resolves in the `_get_searcher`
registry; when every entry is a registered source this equals the length
of the list (counting repetitions), so a repeated identifier causes one
invocation per repetition. -/
theorem c4_invocations_amended :
    (∀ sources : List String,
      (∀ s ∈ sources, searcherExists s = true) →
      dispatchCount sources = sources.length) ∧
    (∀ (s : String) (sources : List String),
      dispatchCount (s :: sources) =
        (if searcherExists s then 1 else 0) + dispatchCount sources) ∧
    (∀ s ∈ AVAILABLE_SOURCES, searcherExists s = true) := by
  refine ⟨?_, ?_, by decide⟩
  · intro sources h
    rw [dispatchCount, List.filter_eq_self.mpr h]
  · intro s sources
    rw [dispatchCount, dispatchCount, List.filter_cons]
    split
    · simp [Nat.add_comm]
    · simp

/-- C4 witness: the amended count at a concrete all-registered list. -/
theorem c4_invocations_amended_witness :
    dispatchCount ["wikipedia", "github"] = 2 :=
  c4_invocations_amended.1 ["wikipedia", "github"] (by decide)

set_option maxRecDepth 4000 in
/-- C5: `WebIntelligenceGatherer.__init__` rejects a keyword of length 1
or 201 with `ValueError` and accepts length 2 and 200; an unknown source
identifier (`"reddit"`) is likewise rejected.  The constructor performs
no network activity, so every rejection happens before any request or
adapter invocation. -/
theorem c5_construction_validation :
    (gathererInit (mkKeyword 1) ["wikipedia"] 5).isOk = false ∧
    (gathererInit (mkKeyword 201) ["wikipedia"] 5).isOk = false ∧
    (gathererInit (mkKeyword 2) ["wikipedia"] 5).isOk = true ∧
    (gathererInit (mkKeyword 200) ["wikipedia"] 5).isOk = true ∧
    (gathererInit (mkKeyword 2) ["reddit"] 5).isOk = false := by
  decide

/-- C6: for every keyword, every non-negative requested cap `m`, and
every request/parse outcome, an adapter's `search` returns at most
`min(m, 50)` records (`self.max_results = min(max_results, 50)` followed
by `self.results[:self.max_results]`), so each source contributes at
most `m` entries to the aggregate buffer before deduplication.  (A
negative cap — outside the spec's 1..50 request range — behaves as in
the C10 theorem instead.) -/
theorem c6_adapter_cap (kw : String) (m : Int) (now : String)
    (hm : 0 ≤ m) :
    (∀ resp : Except String (List WikiItem),
      (wikipediaSearch kw m now resp).length ≤ min m.toNat 50) ∧
    (∀ resp : Except String (List GitHubItem),
      (githubSearch kw m now resp).length ≤ min m.toNat 50) := by
  have hcap : 0 ≤ searcherCap m := le_min hm (by decide)
  have htn : (searcherCap m).toNat = min m.toNat 50 := by
    rw [searcherCap, MAX_RESULTS_LIMIT]
    omega
  constructor
  · intro resp
    cases resp with
    | error e =>
      calc (wikipediaSearch kw m now (Except.error e)).length
          ≤ (searcherCap m).toNat := pySlice_length_le hcap []
        _ = min m.toNat 50 := htn
    | ok items =>
      calc (wikipediaSearch kw m now (Except.ok items)).length
          ≤ (searcherCap m).toNat := pySlice_length_le hcap _
        _ = min m.toNat 50 := htn
  · intro resp
    cases resp with
    | error e =>
      calc (githubSearch kw m now (Except.error e)).length
          ≤ (searcherCap m).toNat := pySlice_length_le hcap []
        _ = min m.toNat 50 := htn
    | ok items =>
      calc (githubSearch kw m now (Except.ok items)).length
          ≤ (searcherCap m).toNat := pySlice_length_le hcap _
        _ = min m.toNat 50 := htn

/-- C6 witness: the cap bound at a concrete request. -/
theorem c6_adapter_cap_witness :
    (wikipediaSearch "ab" 3 "t" (Except.error "boom")).length ≤
      min ((3 : Int)).toNat 50 :=
  (c6_adapter_cap "ab" 3 "t" (by decide)).1 (Except.error "boom")

/-- C7: when the request fails after exhausting retries or the response
cannot be decoded (any exception caught by the adapter's `try/except`,
modelled as `Except.error`), the adapter's `search` returns the empty
sequence; `search` is a total function into result lists, so the failure
is swallowed and never propagates to the orchestrator — that source
merely contributes zero results. -/
theorem c7_adapter_failure_swallowed :
    (∀ (kw : String) (m : Int) (now e : String),
      wikipediaSearch kw m now (Except.error e) = []) ∧
    (∀ (kw : String) (m : Int) (now e : String),
      githubSearch kw m now (Except.error e) = []) := by
  constructor
  · intro kw m now e
    rw [wikipediaSearch, pySlice]
    split <;> simp
  · intro kw m now e
    rw [githubSearch, pySlice]
    split <;> simp

/-- C10: `WebIntelligenceGatherer.__init__` never validates the
per-source cap (its outcome is identical for every `max_results`);
`BaseSearcher.__init__` clamps a cap above 50 down to 50; a cap of 0
makes every adapter return the empty sequence; and a negative cap is
neither rejected nor clamped — the slice `results[:max_results]` then
drops that many trailing items instead of bounding the length. -/
theorem c10_cap_unvalidated :
    (∀ (kw : String) (srcs : List String) (m m2 : Int),
      gathererInit kw srcs m = gathererInit kw srcs m2) ∧
    (∀ m : Int, 50 < m → searcherCap m = 50) ∧
    (∀ (kw now : String) (resp : Except String (List WikiItem)),
      wikipediaSearch kw 0 now resp = []) ∧
    (∀ (kw now : String) (m : Int) (items : List WikiItem), m < 0 →
      wikipediaSearch kw m now (Except.ok items) =
        (items.map (wikipediaParseItem now)).take
          (items.length - (-m).toNat)) := by
  refine ⟨fun kw srcs m m2 => rfl, ?_, ?_, ?_⟩
  · intro m hm
    rw [searcherCap, MAX_RESULTS_LIMIT]
    omega
  · intro kw now resp
    have hcap : searcherCap 0 = 0 := by decide
    cases resp <;> simp [wikipediaSearch, hcap, pySlice]
  · intro kw now m items hm
    have hcap : searcherCap m = m := by
      rw [searcherCap, MAX_RESULTS_LIMIT]
      omega
    rw [wikipediaSearch, hcap, pySlice,
      if_neg (by omega : ¬ (0 : Int) ≤ m)]
    congr 1
    rw [List.length_map]
    omega

/-- C10 witness: concrete clamp above 50 and concrete trailing-item
drop at a negative cap. -/
theorem c10_cap_unvalidated_witness :
    searcherCap 100 = 50 ∧
    wikipediaSearch "ab" (-1) "t"
        (Except.ok [⟨some "A", some "sA"⟩, ⟨some "B", some "sB"⟩]) =
      ([⟨some "A", some "sA"⟩, ⟨some "B", some "sB"⟩].map
          (wikipediaParseItem "t")).take
        (([⟨some "A", some "sA"⟩, ⟨some "B", some "sB"⟩] :
            List WikiItem).length - ((-(-1) : Int)).toNat) :=
  ⟨c10_cap_unvalidated.2.1 100 (by decide),
   c10_cap_unvalidated.2.2.2 "ab" "t" (-1)
     [⟨some "A", some "sA"⟩, ⟨some "B", some "sB"⟩] (by decide)⟩

/-- C8: `ReportGenerator.to_csv` returns the literal placeholder (and no
header) on empty input; on non-empty input it returns the header row
followed by one row per result in input order, quoting the `title` and
`description` cells with embedded double quotes doubled and leaving
`source`, `url` and `timestamp` unquoted. -/
theorem c8_to_csv_format :
    to_csv [] = "No results found" ∧
    (∀ (r : SearchResult) (rs : List SearchResult),
      to_csv (r :: rs) =
        "source,title,description,url,timestamp\n" ++
        String.join ((r :: rs).map (fun x =>
          x.source ++ "," ++
          ("\"" ++ x.title.replace "\"" "\"\"" ++ "\"") ++ "," ++
          ("\"" ++ x.description.replace "\"" "\"\"" ++ "\"") ++ "," ++
          x.url ++ "," ++ x.timestamp ++ "\n"))) := by
  constructor
  · rfl
  · intro r rs
    rw [to_csv, if_neg (by simp), to_csv_foldl]
    have hrow : ∀ x : SearchResult,
        joinComma (csvRowCells x) ++ "\n" =
          x.source ++ "," ++
          ("\"" ++ x.title.replace "\"" "\"\"" ++ "\"") ++ "," ++
          ("\"" ++ x.description.replace "\"" "\"\"" ++ "\"") ++ "," ++
          x.url ++ "," ++ x.timestamp ++ "\n" := by
      intro x
      simp [joinComma, csvRowCells, csvQuote, String.append_assoc]
    simp only [hrow]

/-- C9: the report value built by `ReportGenerator.to_json` (analyzed at
the JSON value level; `json.dumps`/`json.loads` are the standard
library's inverse pair) has a `search` block holding the keyword, the
generation timestamp, the source list, `total_results` equal to the
number of results, and the elapsed seconds rounded to 2 decimals; its
`results` array lists the input records verbatim and in input order,
each with exactly the normalized schema's keys. -/
theorem c9_to_json_report :
    ∀ (results : List SearchResult) (keyword : String) (t : Rat)
      (sources : List String) (now : String),
      ((to_json results keyword t sources now).getField "results" =
        some (JVal.arr (results.map resultToJVal))) ∧
      (((to_json results keyword t sources now).getField "search").bind
          (fun v => v.getField "keyword") = some (JVal.str keyword)) ∧
      (((to_json results keyword t sources now).getField "search").bind
          (fun v => v.getField "timestamp") = some (JVal.str now)) ∧
      (((to_json results keyword t sources now).getField "search").bind
          (fun v => v.getField "sources") =
        some (JVal.arr (sources.map JVal.str))) ∧
      (((to_json results keyword t sources now).getField "search").bind
          (fun v => v.getField "total_results") =
        some (JVal.num (results.length : Rat))) ∧
      (((to_json results keyword t sources now).getField "search").bind
          (fun v => v.getField "search_time_seconds") =
        some (JVal.num (round2 t))) ∧
      (∀ r : SearchResult, (resultToJVal r).objKeys =
        some ["source", "title", "description", "url", "timestamp"]) ∧
      (∀ r r2 : SearchResult, resultToJVal r = resultToJVal r2 →
        r = r2) := by
  intro results keyword t sources now
  refine ⟨rfl, rfl, rfl, rfl, rfl, rfl, fun r => rfl, ?_⟩
  intro r r2 h
  cases r with
  | mk s1 t1 d1 u1 ts1 =>
    cases r2 with
    | mk s2 t2 d2 u2 ts2 =>
      simp only [resultToJVal, JVal.obj.injEq, List.cons.injEq,
        Prod.mk.injEq, JVal.str.injEq, and_true, true_and] at h
      simp_all

/-- C9 witness: the schema keys and record verbatimness at a concrete
record, discharging the injectivity hypothesis there. -/
theorem c9_to_json_report_witness :
    (resultToJVal (exResult "u")).objKeys =
      some ["source", "title", "description", "url", "timestamp"] ∧
    exResult "u" = exResult "u" :=
  ⟨(c9_to_json_report [] "k" 0 [] "n").2.2.2.2.2.2.1 (exResult "u"),
   (c9_to_json_report [] "k" 0 [] "n").2.2.2.2.2.2.2 (exResult "u")
     (exResult "u") rfl⟩

end WebIntel
